import Mathlib

/-!
# DarkPDF (`src/main.py`) — shallow embedding and verification

The program is a single-file PySide6 PDF viewer (`PDFViewer` in
`src/main.py`).  We embed the logic-bearing slice — page rendering with
color inversion, zoom, navigation and scroll-offset computation — as pure
Lean functions over an explicit viewer state.

Modelling decisions:
* Python floats for the zoom level are modelled as exact rationals (`ℚ`);
  the `0.2` step is `1/5`.
* Python ints (`current_page`, the spinbox argument of `jump_to_page`)
  are modelled as `Int`.
* The external rasterizer (`page.get_pixmap`) is an abstract function
  `Nat → ℚ → Option Bitmap` carried by the document handle; `none` models
  the call raising an exception for that page.
* `QImage.invertPixels` on an RGB888 image replaces every channel byte
  `c` by `255 - c`.
* The Qt layout `pages_layout` is modelled as a `List (Option Bitmap)`:
  one `some` entry per page label widget (whose height is the bitmap
  height) and a trailing `none` for the stretch item added after the
  loop (`itemAt(i).widget()` is null for a stretch).
* `render_count` is a ghost counter incremented exactly when
  `render_all_pages` actually re-renders (a document is open); it lets us
  state which commands trigger a gallery rebuild.
* `open_file` additionally returns the list of document ids on which
  `close()` was called during the call, so that the close-before-open
  behaviour is observable.
-/

/-- An RGB bitmap: width, height and the flat channel-byte buffer
(`pix.samples` viewed as `Format_RGB888`). Channel values are bytes,
i.e. `< 256`; we keep them as `Nat` and carry the bound as a hypothesis
where it matters. -/
structure Bitmap where
  width : Nat
  height : Nat
  pixels : List Nat
deriving Repr, DecidableEq

/-- `QImage.invertPixels` on an alpha-free RGB888 image: every channel
byte `c` becomes `255 - c`.  Dimensions are untouched. -/
def Bitmap.invertPixels (b : Bitmap) : Bitmap :=
  { b with pixels := b.pixels.map (fun c => 255 - c) }

/-- An open PDF document handle (`fitz.open` result): its page count
(`len(doc)`) and the external rasterizer `page.get_pixmap` at a zoom
factor, which may fail (`none` = the library raised). `id` identifies
the underlying handle so that `close()` calls can be logged. -/
structure Doc where
  id : Nat
  pageCount : Nat
  raster : Nat → ℚ → Option Bitmap

/-- One iteration body of the render loop in `render_all_pages`:
rasterize page `pageNum` at `zoom`, then invert the pixels when the
invert setting is on. -/
def renderPageImage (raster : Nat → ℚ → Option Bitmap) (pageNum : Nat)
    (zoom : ℚ) (invert : Bool) : Option Bitmap :=
  (raster pageNum zoom).map (fun img => if invert then img.invertPixels else img)

/-- The `for page_num in range(...)` loop of `render_all_pages`, run over
the list of page numbers.  The whole loop sits inside a single
`try/except`: a failing page raises out of the loop, so the pages
already appended to `page_images` are kept, the failing page and all
later ones are dropped, and the returned flag records whether the loop
completed (only then is the trailing stretch item added). -/
def renderLoop (raster : Nat → ℚ → Option Bitmap) (zoom : ℚ) (invert : Bool) :
    List Nat → List Bitmap × Bool
  | [] => ([], true)
  | p :: ps =>
    match renderPageImage raster p zoom invert with
    | none => ([], false)
    | some img =>
      let rest := renderLoop raster zoom invert ps
      (img :: rest.1, rest.2)

/-- The mutable state of the `PDFViewer` window (the fields of
`__init__` that the claims are about, plus the scroll bar position of
the scroll area and the ghost rebuild counter). -/
structure ViewerState where
  pdf_document : Option Doc
  current_page : Int
  zoom_level : ℚ
  invert_colors : Bool
  page_images : List Bitmap
  pages_layout : List (Option Bitmap)
  scroll_position : Nat
  render_count : Nat

/-- The state after `PDFViewer.__init__` (before any document is
opened): no document, page 0, 100% zoom, inversion ON by default,
empty gallery. -/
def initState : ViewerState where
  pdf_document := none
  current_page := 0
  zoom_level := 1
  invert_colors := true
  page_images := []
  pages_layout := []
  scroll_position := 0
  render_count := 0

/-- Inter-page spacing set by `self.pages_layout.setSpacing(10)`. -/
def pageSpacing : Nat := 10

/-- `PDFViewer.render_all_pages`: returns early when no document is
open; otherwise clears the layout and `page_images`, renders every page
in order (aborting on the first failure, see `renderLoop`), and adds the
stretch item only when the loop completed. -/
def render_all_pages (s : ViewerState) : ViewerState :=
  match s.pdf_document with
  | none => s
  | some doc =>
    let r := renderLoop doc.raster s.zoom_level s.invert_colors
      (List.range doc.pageCount)
    { s with
      page_images := r.1
      pages_layout := r.1.map some ++ (if r.2 then [none] else [])
      render_count := s.render_count + 1 }

/-- `PDFViewer.render_page`: just delegates to `render_all_pages`
("re-render all pages (when zoom or color mode changes)"). -/
def render_page (s : ViewerState) : ViewerState :=
  render_all_pages s

/-- The accumulation loop of `scroll_to_page`:
`for i in range(page_num): if i < count: w = itemAt(i).widget(); if w:
pos += w.height() + spacing`. A `none` layout entry (the stretch item)
contributes nothing. -/
def scrollLoop (layout : List (Option Bitmap)) (spacing : Nat) : Nat → Nat
  | 0 => 0
  | n + 1 =>
    scrollLoop layout spacing n +
      (match layout.getD n none with
       | some w => w.height + spacing
       | none => 0)

/-- `PDFViewer.scroll_to_page`: no-op when `page_num` is outside
`[0, len(page_images))`; otherwise sets the vertical scroll bar to the
accumulated heights (plus spacing) of the widgets before `page_num`.
(The spinbox display update is not modelled.) -/
def scroll_to_page (s : ViewerState) (page_num : Int) : ViewerState :=
  if page_num < 0 ∨ (s.page_images.length : Int) ≤ page_num then s
  else
    { s with
      scroll_position := scrollLoop s.pages_layout pageSpacing page_num.toNat }

/-- `PDFViewer.prev_page`: if a document is open and `current_page > 0`,
decrement and scroll to the new page. -/
def prev_page (s : ViewerState) : ViewerState :=
  match s.pdf_document with
  | none => s
  | some _ =>
    if 0 < s.current_page then
      let s' := { s with current_page := s.current_page - 1 }
      scroll_to_page s' s'.current_page
    else s

/-- `PDFViewer.next_page`: if a document is open and
`current_page < len(doc) - 1`, increment and scroll to the new page. -/
def next_page (s : ViewerState) : ViewerState :=
  match s.pdf_document with
  | none => s
  | some doc =>
    if s.current_page < (doc.pageCount : Int) - 1 then
      let s' := { s with current_page := s.current_page + 1 }
      scroll_to_page s' s'.current_page
    else s

/-- `PDFViewer.jump_to_page` (the spinbox `valueChanged` handler, with
the 1-based spinbox value as argument): if a document is open, set
`current_page = page_num - 1` (no clamping) and scroll to it. -/
def jump_to_page (s : ViewerState) (page_num : Int) : ViewerState :=
  match s.pdf_document with
  | none => s
  | some _ =>
    let s' := { s with current_page := page_num - 1 }
    scroll_to_page s' s'.current_page

/-- `PDFViewer.zoom_in`: `zoom_level = min(zoom_level + 0.2, 5.0)`,
then a full re-render. Not guarded by an open document (the button is
always active); `render_page` itself no-ops without a document. -/
def zoom_in (s : ViewerState) : ViewerState :=
  render_page { s with zoom_level := min (s.zoom_level + 1/5) 5 }

/-- `PDFViewer.zoom_out`: `zoom_level = max(zoom_level - 0.2, 0.2)`,
then a full re-render. -/
def zoom_out (s : ViewerState) : ViewerState :=
  render_page { s with zoom_level := max (s.zoom_level - 1/5) (1/5) }

/-- `PDFViewer.toggle_color_invert`: flip `invert_colors` (the button
text and stylesheet updates are not modelled) and re-render. -/
def toggle_color_invert (s : ViewerState) : ViewerState :=
  render_page { s with invert_colors := !s.invert_colors }

/-- The keys handled by `PDFViewer.keyPressEvent` (several physical keys
map to the same action; `Key_P` calls a method `toggle_auto_play` that
does not exist in the class and is omitted). -/
inductive Key where
  | nextKey   -- Right / Down / PageDown / Space
  | prevKey   -- Left / Up / PageUp
  | homeKey   -- Home
  | endKey    -- End
  | plusKey   -- Plus / Equal
  | minusKey  -- Minus
  | invertKey -- I
  | otherKey
deriving Repr, DecidableEq

/-- `PDFViewer.keyPressEvent`: returns immediately when no document is
open; `Home`/`End` set `current_page` directly and call `render_page()`
(a full gallery rebuild) without scrolling. -/
def keyPressEvent (s : ViewerState) (k : Key) : ViewerState :=
  match s.pdf_document with
  | none => s
  | some doc =>
    match k with
    | Key.nextKey => next_page s
    | Key.prevKey => prev_page s
    | Key.homeKey => render_page { s with current_page := 0 }
    | Key.endKey =>
      render_page { s with current_page := (doc.pageCount : Int) - 1 }
    | Key.plusKey => zoom_in s
    | Key.minusKey => zoom_out s
    | Key.invertKey => toggle_color_invert s
    | Key.otherKey => s

/-- `PDFViewer.open_file`. `filePath = none` models a cancelled file
dialog. `openRes` is the outcome of `fitz.open(file_path)` (`none` = it
raised).  Returns the new state together with the ids of the documents
on which `close()` was called during this call.  Note the order in the
source: the previous document is closed BEFORE `fitz.open` is attempted,
so on failure the state still references the old, now closed, handle.
On success `current_page` is reset to 0 and the gallery is rebuilt.
(The spinbox maximum/value updates are not modelled; `setValue(1)`
re-enters `jump_to_page(1)`, which only re-establishes
`current_page = 0`.) -/
def open_file (s : ViewerState) (filePath : Option String)
    (openRes : Option Doc) : ViewerState × List Nat :=
  match filePath with
  | none => (s, [])
  | some _ =>
    let closed := match s.pdf_document with
      | some d => [d.id]
      | none => []
    match openRes with
    | none => (s, closed)
    | some d =>
      (render_all_pages { s with pdf_document := some d, current_page := 0 },
       closed)

/-! ## Concrete fixtures used by witnesses and counterexamples -/

/-- A concrete 2×1 bitmap. -/
def exBitmapA : Bitmap := ⟨2, 30, [0, 100, 255, 1, 2, 3]⟩

/-- A second concrete bitmap with a different height. -/
def exBitmapB : Bitmap := ⟨2, 40, [7, 8, 9, 10, 11, 12]⟩

/-- A rasterizer that always succeeds: page 0 yields `exBitmapA`, every
other page `exBitmapB`. -/
def exRaster : Nat → ℚ → Option Bitmap :=
  fun p _ => if p = 0 then some exBitmapA else some exBitmapB

/-- A concrete 3-page document. -/
def exDoc3 : Doc := ⟨1, 3, exRaster⟩

/-- A concrete 2-page document. -/
def exDoc2 : Doc := ⟨2, 2, exRaster⟩

/-- The viewer state after opening `exDoc3` from the initial state. -/
def exState3 : ViewerState :=
  (open_file initState (some "a.pdf") (some exDoc3)).1

/-- The viewer state after opening `exDoc2` and moving to its last
page. -/
def exState2 : ViewerState :=
  next_page (open_file initState (some "b.pdf") (some exDoc2)).1

/-- A 1-page document with a distinct handle id, used to observe
`close()` calls. -/
def exDocA : Doc := ⟨7, 1, exRaster⟩

/-- The viewer state after successfully opening `exDocA`. -/
def exStateA : ViewerState :=
  (open_file initState (some "a.pdf") (some exDocA)).1

/-- A rasterizer that raises on page 1 and succeeds elsewhere. -/
def exRasterFail : Nat → ℚ → Option Bitmap :=
  fun p _ => if p = 1 then none else some exBitmapA

/-- A 3-page document whose middle page fails to rasterize. -/
def exDocFail : Doc := ⟨4, 3, exRasterFail⟩

/-- A state holding `exDocFail`, not yet rendered. -/
def exStateFail : ViewerState :=
  { initState with pdf_document := some exDocFail }

/-- A documentless state at the maximum zoom factor. -/
def exStateZoomMax : ViewerState :=
  { initState with zoom_level := 5 }

/-- The navigation commands of the spec's Navigation Controller, as the
source implements them (`jump` carries the 1-based spinbox value). -/
inductive NavCmd where
  | stepNext
  | stepPrev
  | goHome
  | goLast
  | jump (n : Int)

/-- Dispatch of a navigation command to the handler the source wires it
to: buttons/arrow keys to `next_page`/`prev_page`, the Home/End keys to
the `keyPressEvent` branches, the spinbox to `jump_to_page`. -/
def applyNav (s : ViewerState) : NavCmd → ViewerState
  | NavCmd.stepNext => next_page s
  | NavCmd.stepPrev => prev_page s
  | NavCmd.goHome => keyPressEvent s Key.homeKey
  | NavCmd.goLast => keyPressEvent s Key.endKey
  | NavCmd.jump n => jump_to_page s n

/-- A command is producible by the UI for a document with `pc` pages:
the spinbox (`setMinimum(1)`, `setMaximum(page_count)`) only emits jump
values in `[1, pc]`; the other commands are always producible. -/
def NavCmd.uiProducible (c : NavCmd) (pc : Nat) : Prop :=
  match c with
  | NavCmd.jump n => 1 ≤ n ∧ n ≤ (pc : Int)
  | _ => True

/-! ## Basic frame lemmas -/

lemma render_all_pages_frame (s : ViewerState) :
    (render_all_pages s).pdf_document = s.pdf_document ∧
    (render_all_pages s).current_page = s.current_page ∧
    (render_all_pages s).zoom_level = s.zoom_level ∧
    (render_all_pages s).invert_colors = s.invert_colors ∧
    (render_all_pages s).scroll_position = s.scroll_position := by
  rcases hs : s.pdf_document with _ | d <;>
    simp [render_all_pages, hs]

@[simp] lemma render_all_pages_pdf_document (s : ViewerState) :
    (render_all_pages s).pdf_document = s.pdf_document :=
  (render_all_pages_frame s).1

@[simp] lemma render_all_pages_current_page (s : ViewerState) :
    (render_all_pages s).current_page = s.current_page :=
  (render_all_pages_frame s).2.1

@[simp] lemma render_all_pages_zoom_level (s : ViewerState) :
    (render_all_pages s).zoom_level = s.zoom_level :=
  (render_all_pages_frame s).2.2.1

@[simp] lemma render_all_pages_invert_colors (s : ViewerState) :
    (render_all_pages s).invert_colors = s.invert_colors :=
  (render_all_pages_frame s).2.2.2.1

@[simp] lemma render_all_pages_scroll_position (s : ViewerState) :
    (render_all_pages s).scroll_position = s.scroll_position :=
  (render_all_pages_frame s).2.2.2.2

lemma render_all_pages_page_images (s : ViewerState) (doc : Doc)
    (hdoc : s.pdf_document = some doc) :
    (render_all_pages s).page_images =
      (renderLoop doc.raster s.zoom_level s.invert_colors
        (List.range doc.pageCount)).1 := by
  simp [render_all_pages, hdoc]

lemma scroll_to_page_frame (s : ViewerState) (p : Int) :
    (scroll_to_page s p).pdf_document = s.pdf_document ∧
    (scroll_to_page s p).current_page = s.current_page ∧
    (scroll_to_page s p).zoom_level = s.zoom_level ∧
    (scroll_to_page s p).invert_colors = s.invert_colors ∧
    (scroll_to_page s p).page_images = s.page_images ∧
    (scroll_to_page s p).pages_layout = s.pages_layout ∧
    (scroll_to_page s p).render_count = s.render_count := by
  unfold scroll_to_page
  split <;> simp

@[simp] lemma scroll_to_page_current_page (s : ViewerState) (p : Int) :
    (scroll_to_page s p).current_page = s.current_page :=
  (scroll_to_page_frame s p).2.1

@[simp] lemma scroll_to_page_page_images (s : ViewerState) (p : Int) :
    (scroll_to_page s p).page_images = s.page_images :=
  (scroll_to_page_frame s p).2.2.2.2.1

@[simp] lemma scroll_to_page_render_count (s : ViewerState) (p : Int) :
    (scroll_to_page s p).render_count = s.render_count :=
  (scroll_to_page_frame s p).2.2.2.2.2.2

@[simp] lemma scroll_to_page_pdf_document (s : ViewerState) (p : Int) :
    (scroll_to_page s p).pdf_document = s.pdf_document :=
  (scroll_to_page_frame s p).1

/-! ## Claim C1 — inversion produces channel-wise complements -/

/-- Claim C1: for every page and zoom factor in `[0.2, 5.0]`, when
rasterization succeeds, rendering with `invert = false` and with
`invert = true` yields bitmaps of equal dimensions whose channel buffers
have equal length and satisfy `inverted[i] = 255 - normal[i]` at every
index. -/
theorem invert_renders_complement (doc : Doc) (p : Nat) (z : ℚ)
    (hz : 1/5 ≤ z ∧ z ≤ 5) (bmp : Bitmap)
    (hr : doc.raster p z = some bmp) :
    ∃ normal inverted : Bitmap,
      renderPageImage doc.raster p z false = some normal ∧
      renderPageImage doc.raster p z true = some inverted ∧
      inverted.width = normal.width ∧
      inverted.height = normal.height ∧
      inverted.pixels.length = normal.pixels.length ∧
      ∀ i, i < normal.pixels.length →
        inverted.pixels.getD i 0 = 255 - normal.pixels.getD i 0 := by
  refine ⟨bmp, bmp.invertPixels, ?_, ?_, rfl, rfl, ?_, ?_⟩
  · simp [renderPageImage, hr]
  · simp [renderPageImage, hr]
  · simp [Bitmap.invertPixels]
  · intro i hi
    simp [Bitmap.invertPixels, List.getD_eq_getElem?_getD,
      List.getElem?_map, List.getElem?_eq_getElem hi]

/-- Witness for C1 at `exDoc3`, page 0, zoom 1. -/
theorem invert_renders_complement_witness :
    ∃ normal inverted : Bitmap,
      renderPageImage exDoc3.raster 0 1 false = some normal ∧
      renderPageImage exDoc3.raster 0 1 true = some inverted ∧
      inverted.width = normal.width ∧
      inverted.height = normal.height ∧
      inverted.pixels.length = normal.pixels.length ∧
      ∀ i, i < normal.pixels.length →
        inverted.pixels.getD i 0 = 255 - normal.pixels.getD i 0 :=
  invert_renders_complement exDoc3 0 1 ⟨by norm_num, by norm_num⟩
    exBitmapA rfl

/-! ## Claim C2 — Home/End rebuild the gallery and do not scroll -/

/-- Claim C2 (evaluation at the failing input): with a 2-page document
open on its last page, pressing Home (resp. End) triggers a full
gallery rebuild (the rebuild counter increments) and leaves the scroll
offset untouched, while pressing a next-page key neither rebuilds nor
fails to move.  This contradicts the claim that navigation commands
never rebuild and always produce a new scroll offset. -/
theorem home_end_rebuild_without_scroll :
    (keyPressEvent exState2 Key.homeKey).render_count
        = exState2.render_count + 1 ∧
    (keyPressEvent exState2 Key.homeKey).scroll_position
        = exState2.scroll_position ∧
    (keyPressEvent exState2 Key.homeKey).current_page = 0 ∧
    (keyPressEvent exState2 Key.endKey).render_count
        = exState2.render_count + 1 ∧
    (keyPressEvent exState2 Key.endKey).scroll_position
        = exState2.scroll_position ∧
    (keyPressEvent exState2 Key.prevKey).render_count
        = exState2.render_count := by
  refine ⟨rfl, rfl, rfl, rfl, rfl, rfl⟩

/-! ## Claim C8 — next/prev bounds -/

/-- Claim C8: with a document open and a valid current page, `next` at
the last page and `prev` at the first page leave `current_page`
unchanged; otherwise `next` increments and `prev` decrements it by
one. -/
theorem nav_bounds (s : ViewerState) (doc : Doc)
    (hdoc : s.pdf_document = some doc)
    (h0 : 0 ≤ s.current_page)
    (hlt : s.current_page < (doc.pageCount : Int)) :
    (s.current_page = (doc.pageCount : Int) - 1 →
      (next_page s).current_page = s.current_page) ∧
    (s.current_page = 0 →
      (prev_page s).current_page = s.current_page) ∧
    (s.current_page < (doc.pageCount : Int) - 1 →
      (next_page s).current_page = s.current_page + 1) ∧
    (0 < s.current_page →
      (prev_page s).current_page = s.current_page - 1) := by
  refine ⟨?_, ?_, ?_, ?_⟩
  · intro h
    simp [next_page, hdoc, h]
  · intro h
    simp [prev_page, hdoc, h]
  · intro h
    simp [next_page, hdoc, h]
  · intro h
    simp [prev_page, hdoc, h]

/-- Witness for C8 at `exState2` (2-page document, last page). -/
theorem nav_bounds_witness :
    (exState2.current_page = (exDoc2.pageCount : Int) - 1 →
      (next_page exState2).current_page = exState2.current_page) ∧
    (exState2.current_page = 0 →
      (prev_page exState2).current_page = exState2.current_page) ∧
    (exState2.current_page < (exDoc2.pageCount : Int) - 1 →
      (next_page exState2).current_page = exState2.current_page + 1) ∧
    (0 < exState2.current_page →
      (prev_page exState2).current_page = exState2.current_page - 1) :=
  nav_bounds exState2 exDoc2 rfl (by decide) (by decide)

/-! ## Claim C3 — a failed open has already closed the previous document -/

/-- Claim C3 counterexample: with `exDocA` (handle id 7) open, a failed
open attempt has called `close()` on the previous document's handle —
the previous document does NOT remain open. -/
theorem failed_open_already_closed_previous :
    (open_file exStateA (some "b.pdf") none).2 = [7] ∧
    (open_file exStateA (some "b.pdf") none).2 ≠ [] := by
  refine ⟨rfl, by decide⟩

/-- Claim C3 (amended): if opening a new document fails while a
document is open, the viewer's state fields are all unchanged (it still
references the previous document object and its gallery), but the
previous document's handle has already received exactly one `close()`
call, issued before the open was attempted — it does not remain open. -/
theorem failed_open_state_and_close (s : ViewerState) (d : Doc)
    (path : String) (hdoc : s.pdf_document = some d) :
    open_file s (some path) none = (s, [d.id]) := by
  simp [open_file, hdoc]

/-- Witness for the amended C3 at `exStateA`. -/
theorem failed_open_state_and_close_witness :
    open_file exStateA (some "b.pdf") none = (exStateA, [exDocA.id]) :=
  failed_open_state_and_close exStateA exDocA "b.pdf" rfl

/-! ## Claim C4 — a page failure aborts the rest of the rebuild -/

/-- Claim C4 counterexample: on a 3-page document whose page 1 fails to
rasterize, the rebuilt gallery holds only page 0 — page 1 gets no
placeholder and page 2 is not rendered at all. -/
theorem render_failure_drops_rest :
    (render_all_pages exStateFail).page_images
        = [exBitmapA.invertPixels] ∧
    (render_all_pages exStateFail).page_images.length
        ≠ exDocFail.pageCount := by
  refine ⟨rfl, by decide⟩

lemma renderLoop_append_of_ok (raster : Nat → ℚ → Option Bitmap) (z : ℚ)
    (inv : Bool) (f : Nat → Bitmap) (l₁ l₂ : List Nat)
    (h : ∀ p ∈ l₁, renderPageImage raster p z inv = some (f p)) :
    renderLoop raster z inv (l₁ ++ l₂) =
      (l₁.map f ++ (renderLoop raster z inv l₂).1,
       (renderLoop raster z inv l₂).2) := by
  induction l₁ with
  | nil => simp [renderLoop]
  | cons a t ih =>
    have ha : renderPageImage raster a z inv = some (f a) := h a (by simp)
    have ht : ∀ p ∈ t, renderPageImage raster p z inv = some (f p) :=
      fun p hp => h p (by simp [hp])
    simp [renderLoop, ha, ih ht]

lemma renderLoop_range_fail (raster : Nat → ℚ → Option Bitmap) (z : ℚ)
    (inv : Bool) (f : Nat → Bitmap) (n k : Nat) (hk : k < n)
    (hfail : renderPageImage raster k z inv = none)
    (hok : ∀ i < k, renderPageImage raster i z inv = some (f i)) :
    renderLoop raster z inv (List.range n) = ((List.range k).map f, false) := by
  obtain ⟨m, rfl⟩ : ∃ m, n = k + (m + 1) := ⟨n - k - 1, by omega⟩
  rw [List.range_add]
  rw [renderLoop_append_of_ok raster z inv f _ _
    (fun p hp => hok p (List.mem_range.mp hp))]
  obtain ⟨rest, hrest⟩ :
      ∃ rest, (List.range (m + 1)).map (fun x => k + x) = k :: rest :=
    ⟨((List.range m).map Nat.succ).map (fun x => k + x), by
      rw [List.range_succ_eq_map, List.map_cons]
      simp⟩
  rw [hrest]
  simp [renderLoop, hfail]

/-- Claim C4 (amended): when rasterization of page `k` fails during a
gallery rebuild and all pages before `k` succeed, the rebuild aborts at
`k`: the gallery keeps exactly the rendered pages `0..k-1`; the failing
page gets no placeholder, the pages after it are not rendered, and the
layout ends without the stretch item. -/
theorem render_failure_keeps_prefix (s : ViewerState) (doc : Doc)
    (f : Nat → Bitmap) (k : Nat)
    (hdoc : s.pdf_document = some doc) (hk : k < doc.pageCount)
    (hfail : renderPageImage doc.raster k s.zoom_level s.invert_colors
        = none)
    (hok : ∀ i < k,
      renderPageImage doc.raster i s.zoom_level s.invert_colors
        = some (f i)) :
    (render_all_pages s).page_images = (List.range k).map f ∧
    (render_all_pages s).pages_layout
        = ((List.range k).map f).map some := by
  have h := renderLoop_range_fail doc.raster s.zoom_level s.invert_colors
    f doc.pageCount k hk hfail hok
  simp [render_all_pages, hdoc, h]

/-- Witness for the amended C4 at `exStateFail` (failure on page 1 of
3). -/
theorem render_failure_keeps_prefix_witness :
    (render_all_pages exStateFail).page_images
        = (List.range 1).map (fun _ => exBitmapA.invertPixels) ∧
    (render_all_pages exStateFail).pages_layout
        = ((List.range 1).map (fun _ => exBitmapA.invertPixels)).map some :=
  render_failure_keeps_prefix exStateFail exDocFail
    (fun _ => exBitmapA.invertPixels) 1 rfl (by decide) rfl
    (by
      intro i hi
      have hi0 : i = 0 := by omega
      subst hi0
      rfl)

/-! ## Claim C5 — jump does not clamp -/

/-- Claim C5 counterexample: on the 3-page document, jumping to spinbox
value 10 sets `current_page = 9`, not the clamped value 2, and breaks
the invariant `current_page < page_count`. -/
theorem jump_does_not_clamp :
    (jump_to_page exState3 10).current_page = 9 ∧
    (jump_to_page exState3 10).current_page
        ≠ max 0 (min 10 ((exDoc3.pageCount : Int) - 1)) ∧
    ¬ (jump_to_page exState3 10).current_page
        < (exDoc3.pageCount : Int) := by
  refine ⟨rfl, by decide, by decide⟩

lemma applyNav_preserves (s : ViewerState) (doc : Doc) (c : NavCmd)
    (hdoc : s.pdf_document = some doc)
    (h0 : 0 ≤ s.current_page)
    (hlt : s.current_page < (doc.pageCount : Int))
    (hc : c.uiProducible doc.pageCount) :
    (applyNav s c).pdf_document = some doc ∧
    0 ≤ (applyNav s c).current_page ∧
    (applyNav s c).current_page < (doc.pageCount : Int) := by
  have hpc : 0 < (doc.pageCount : Int) := lt_of_le_of_lt h0 hlt
  cases c with
  | stepNext =>
    by_cases h : s.current_page < (doc.pageCount : Int) - 1 <;>
      simp [applyNav, next_page, hdoc, h] <;> omega
  | stepPrev =>
    by_cases h : 0 < s.current_page <;>
      simp [applyNav, prev_page, hdoc, h] <;> omega
  | goHome =>
    simp [applyNav, keyPressEvent, hdoc, render_page]
    omega
  | goLast =>
    simp [applyNav, keyPressEvent, hdoc, render_page]
    omega
  | jump n =>
    obtain ⟨h1, h2⟩ := hc
    simp [applyNav, jump_to_page, hdoc]
    omega

lemma navs_preserve (doc : Doc) (cs : List NavCmd) :
    ∀ s : ViewerState, s.pdf_document = some doc →
      0 ≤ s.current_page → s.current_page < (doc.pageCount : Int) →
      (∀ c ∈ cs, c.uiProducible doc.pageCount) →
      (cs.foldl applyNav s).pdf_document = some doc ∧
      0 ≤ (cs.foldl applyNav s).current_page ∧
      (cs.foldl applyNav s).current_page < (doc.pageCount : Int) := by
  induction cs with
  | nil =>
    intro s h1 h2 h3 _
    exact ⟨h1, h2, h3⟩
  | cons c t ih =>
    intro s h1 h2 h3 hcs
    have hstep := applyNav_preserves s doc c h1 h2 h3 (hcs c (by simp))
    exact ih (applyNav s c) hstep.1 hstep.2.1 hstep.2.2
      (fun c' hc' => hcs c' (by simp [hc']))

/-- Claim C5 (amended): `jump_to_page n` sets
`current_page = n - 1` with no clamping; the invariant
`0 ≤ current_page < page_count` is nonetheless preserved by any
sequence of navigation commands whose jump values lie in
`[1, page_count]` — the range the spinbox can actually emit. -/
theorem nav_invariant_with_valid_jump (s : ViewerState) (doc : Doc)
    (hdoc : s.pdf_document = some doc)
    (h0 : 0 ≤ s.current_page)
    (hlt : s.current_page < (doc.pageCount : Int))
    (cs : List NavCmd)
    (hcs : ∀ c ∈ cs, c.uiProducible doc.pageCount) :
    (∀ n, (jump_to_page s n).current_page = n - 1) ∧
    (cs.foldl applyNav s).pdf_document = some doc ∧
    0 ≤ (cs.foldl applyNav s).current_page ∧
    (cs.foldl applyNav s).current_page < (doc.pageCount : Int) := by
  refine ⟨fun n => ?_, navs_preserve doc cs s hdoc h0 hlt hcs⟩
  simp [jump_to_page, hdoc]

/-- Witness for the amended C5 on the 3-page document with an
in-range jump followed by the other navigation commands. -/
theorem nav_invariant_with_valid_jump_witness :
    (∀ n, (jump_to_page exState3 n).current_page = n - 1) ∧
    (([NavCmd.jump 3, NavCmd.stepNext, NavCmd.stepPrev, NavCmd.goHome,
        NavCmd.goLast].foldl applyNav exState3).pdf_document
      = some exDoc3) ∧
    0 ≤ ([NavCmd.jump 3, NavCmd.stepNext, NavCmd.stepPrev, NavCmd.goHome,
        NavCmd.goLast].foldl applyNav exState3).current_page ∧
    ([NavCmd.jump 3, NavCmd.stepNext, NavCmd.stepPrev, NavCmd.goHome,
        NavCmd.goLast].foldl applyNav exState3).current_page
      < (exDoc3.pageCount : Int) :=
  nav_invariant_with_valid_jump exState3 exDoc3 rfl (by decide) (by decide)
    [NavCmd.jump 3, NavCmd.stepNext, NavCmd.stepPrev, NavCmd.goHome,
      NavCmd.goLast]
    (by
      intro c hc
      fin_cases hc
      · exact ⟨by decide, by decide⟩
      all_goals trivial)

/-! ## Claim C6 — zoom_in then zoom_out -/

/-- Claim C6 counterexample: starting at the valid zoom factor 5.0,
`zoom_in` clamps at 5.0 and `zoom_out` then yields 4.8 — the original
zoom factor is not restored (an exact 0.2 discrepancy, far beyond any
floating-point tolerance). -/
theorem zoom_roundtrip_fails_at_max :
    exStateZoomMax.zoom_level = 5 ∧
    (zoom_out (zoom_in exStateZoomMax)).zoom_level = 24/5 ∧
    (zoom_out (zoom_in exStateZoomMax)).zoom_level
        ≠ exStateZoomMax.zoom_level := by
  have hz : (zoom_out (zoom_in exStateZoomMax)).zoom_level
      = max (min ((5 : ℚ) + 1/5) 5 - 1/5) (1/5) := by
    simp [zoom_in, zoom_out, render_page, exStateZoomMax, initState]
  refine ⟨rfl, ?_, ?_⟩
  · rw [hz, min_eq_right (by norm_num), max_eq_left (by norm_num)]
    norm_num
  · rw [hz, min_eq_right (by norm_num), max_eq_left (by norm_num)]
    norm_num [exStateZoomMax, initState]

/-- Claim C6 (amended): `zoom_in` then `zoom_out` restores the starting
zoom factor exactly whenever it lies in `[0.2, 4.8]`; for a start in
`(4.8, 5.0]` the pair lands on 4.8 instead, because `zoom_in` clamps at
5.0. -/
theorem zoom_roundtrip_clamped (s : ViewerState)
    (h1 : 1/5 ≤ s.zoom_level) (h2 : s.zoom_level ≤ 5) :
    (zoom_out (zoom_in s)).zoom_level
      = if s.zoom_level ≤ 24/5 then s.zoom_level else 24/5 := by
  have hz : (zoom_out (zoom_in s)).zoom_level
      = max (min (s.zoom_level + 1/5) 5 - 1/5) (1/5) := by
    simp [zoom_in, zoom_out, render_page]
  rw [hz]
  by_cases h : s.zoom_level ≤ 24/5
  · rw [if_pos h, min_eq_left (by linarith)]
    have hsub : s.zoom_level + 1/5 - 1/5 = s.zoom_level := by ring
    rw [hsub, max_eq_left h1]
  · rw [if_neg h, min_eq_right (by linarith)]
    have hsub : (5 : ℚ) - 1/5 = 24/5 := by norm_num
    rw [hsub, max_eq_left (by norm_num)]

/-- Witness for the amended C6 at the default zoom factor 1.0. -/
theorem zoom_roundtrip_clamped_witness :
    (zoom_out (zoom_in initState)).zoom_level
      = if initState.zoom_level ≤ 24/5 then initState.zoom_level
        else 24/5 :=
  zoom_roundtrip_clamped initState (by norm_num [initState])
    (by norm_num [initState])

/-! ## Claim C7 — toggling invert twice restores the gallery -/

/-- Claim C7: with a document open and the gallery in sync with the
current settings (as it is after any open/zoom/toggle), toggling color
inversion twice restores `page_images` to exactly the bitmaps it held
before the first toggle. -/
theorem toggle_invert_twice_restores_gallery (s : ViewerState) (doc : Doc)
    (hdoc : s.pdf_document = some doc)
    (hsync : s.page_images =
      (renderLoop doc.raster s.zoom_level s.invert_colors
        (List.range doc.pageCount)).1) :
    (toggle_color_invert (toggle_color_invert s)).page_images
      = s.page_images := by
  simp [toggle_color_invert, render_page, render_all_pages, hdoc, hsync]

/-- Witness for C7 on the freshly opened 3-page document. -/
theorem toggle_invert_twice_restores_gallery_witness :
    (toggle_color_invert (toggle_color_invert exState3)).page_images
      = exState3.page_images :=
  toggle_invert_twice_restores_gallery exState3 exDoc3 rfl rfl

/-! ## Claim C9 — scroll offset is the sum of earlier heights -/

lemma scrollLoop_layout (imgs : List Bitmap) (spacing : Nat) (p : Nat)
    (hp : p ≤ imgs.length) :
    scrollLoop (imgs.map some ++ [none]) spacing p
      = ((imgs.take p).map (fun b => b.height + spacing)).sum := by
  induction p with
  | zero => simp [scrollLoop]
  | succ n ih =>
    have hn : n < imgs.length := by omega
    have hget : (imgs.map some ++ [none]).getD n none
        = some (imgs.get ⟨n, hn⟩) := by
      rw [List.getD_eq_getElem?_getD,
        List.getElem?_append_left (by simpa using hn),
        List.getElem?_map, List.getElem?_eq_getElem hn]
      rfl
    have htake : imgs.take (n + 1) = imgs.take n ++ [imgs.get ⟨n, hn⟩] := by
      rw [List.take_succ, List.getElem?_eq_getElem hn]
      rfl
    rw [scrollLoop, ih (by omega), hget, htake, List.map_append,
      List.sum_append]
    simp [List.get_eq_getElem]

/-- Claim C9: with a document open, its gallery laid out (page widgets
followed by the stretch item) and `p` a valid page index, the scroll
offset computed for `p` is the sum over all pages strictly before `p`
of that page's rendered height plus the fixed inter-page spacing. -/
theorem scroll_offset_sums_heights (s : ViewerState) (doc : Doc) (p : Nat)
    (hdoc : s.pdf_document = some doc)
    (hlayout : s.pages_layout = s.page_images.map some ++ [none])
    (hp : p < s.page_images.length) :
    (scroll_to_page s (p : Int)).scroll_position
      = ((s.page_images.take p).map
          (fun b => b.height + pageSpacing)).sum := by
  rw [scroll_to_page, if_neg (by push_neg; omega)]
  show scrollLoop s.pages_layout pageSpacing ((p : Int)).toNat
      = ((s.page_images.take p).map (fun b => b.height + pageSpacing)).sum
  rw [hlayout]
  have htn : ((p : Int)).toNat = p := by simp
  rw [htn]
  exact scrollLoop_layout s.page_images pageSpacing p (le_of_lt hp)

/-- Witness for C9: the 3-page scenario — after opening the 3-page
document, the offset for page 2 is the sum of the heights of pages 0
and 1 plus two inter-page spacings. -/
theorem scroll_offset_sums_heights_witness :
    (scroll_to_page exState3 (2 : Int)).scroll_position
      = ((exState3.page_images.take 2).map
          (fun b => b.height + pageSpacing)).sum :=
  scroll_offset_sums_heights exState3 exDoc3 2 rfl rfl (by decide)

/-! ## Claim C10 — inversion is on by default -/

/-- Claim C10: at startup `invert_colors` is initialized to `true`, so
the first document opened is rendered with inversion on: its gallery is
built with `invert = true`, and rendering a page with `invert = true`
applies the per-channel complement to the rasterized bitmap. -/
theorem default_invert_applied :
    initState.invert_colors = true ∧
    ∀ doc : Doc,
      ((open_file initState (some "first.pdf") (some doc)).1).invert_colors
          = true ∧
      ((open_file initState (some "first.pdf") (some doc)).1).page_images
          = (renderLoop doc.raster 1 true (List.range doc.pageCount)).1 ∧
      ∀ p z, renderPageImage doc.raster p z true
          = (doc.raster p z).map Bitmap.invertPixels := by
  refine ⟨rfl, fun doc => ⟨?_, ?_, fun p z => ?_⟩⟩
  · simp [open_file, render_all_pages, initState]
  · simp [open_file, render_all_pages, initState]
  · simp [renderPageImage]
